import Mathlib

/-!
Verification of the spatial interpolation and point-query engine of the
Delhi-AQI-Dashboard repository (`backend/krigging.py`).

The Python source is shallowly embedded over `ℚ`:
* numpy arrays become `List ℚ` / `List (List ℚ)`; the NaN sentinel used for
  masked-out grid cells becomes `Option ℚ` with `none` for NaN;
* the pyproj coordinate transformers (module-level globals in the source) become
  explicit function parameters `toUTM, toLatLon : Pt → Pt`;
* the pykrige `OrdinaryKriging(...).execute("grid", ...)` call, a third-party
  numerical solver, becomes a function parameter of type `KrigeFn`; a raised
  exception is modelled as `none`.  Where a claim depends on pykrige's
  documented `exact_values=True` behavior (the prediction at a grid node that
  coincides with a data location is the observed datum), that behavior is taken
  as an explicit hypothesis of the theorem;
* shapely's `polygon.contains(point)` is modelled by an executable strict
  point-in-polygon test (`contains`): true exactly for points in the interior,
  determined by an even-odd ray cast, with points on the boundary explicitly
  excluded, matching shapely's documented strict containment semantics;
* a raised Python exception in `perform_kriging_correct` is modelled by
  `Except.error` with the corresponding message.
-/

namespace DelhiAQI

/-- A planar or geographic point.  Following the source's `always_xy=True`
convention, geographic points are `(lon, lat)` pairs. -/
abbrev Pt : Type := ℚ × ℚ

/-- A polygon given by the vertices of its exterior ring, implicitly closed.
Models the shapely polygon handed to `mask_grid_with_polygon` and
`get_aqi_at_location`. -/
abbrev Polygon : Type := List Pt

/-- The consecutive-vertex edges of a polygon, last vertex joined back to the
first. -/
def edges : Polygon → List (Pt × Pt)
  | [] => []
  | v :: vs => (v :: vs).zip (vs ++ [v])

/-- `true` iff `p` lies on the closed segment from `a` to `b`
(collinear and within the bounding box of the segment). -/
def onSegment (p a b : Pt) : Bool :=
  if (b.1 - a.1) * (p.2 - a.2) = (b.2 - a.2) * (p.1 - a.1)
      ∧ min a.1 b.1 ≤ p.1 ∧ p.1 ≤ max a.1 b.1
      ∧ min a.2 b.2 ≤ p.2 ∧ p.2 ≤ max a.2 b.2
  then true else false

/-- `true` iff `p` lies on the boundary of the polygon. -/
def onBoundary (polygon : Polygon) (p : Pt) : Bool :=
  (edges polygon).any fun e => onSegment p e.1 e.2

/-- `true` iff the horizontal ray from `p` towards `x = -∞`... more precisely
the standard even-odd crossing test: the edge `(a, b)` straddles the horizontal
line through `p` and the intersection of the edge with that line lies strictly
to the right of `p`. -/
def crossesRay (p a b : Pt) : Bool :=
  if ((p.2 < a.2 ∧ ¬ p.2 < b.2) ∨ (¬ p.2 < a.2 ∧ p.2 < b.2))
      ∧ p.1 < a.1 + (b.1 - a.1) * (p.2 - a.2) / (b.2 - a.2)
  then true else false

/-- Number of edges of the list crossed by the rightward ray from `p`. -/
def crossingNumber (p : Pt) : List (Pt × Pt) → ℕ
  | [] => 0
  | e :: es => (if crossesRay p e.1 e.2 then 1 else 0) + crossingNumber p es

/-- Model of shapely's `polygon.contains(Point p)`: `true` exactly when `p`
lies in the interior of the polygon.  Points on the boundary are never
contained (shapely's containment is strict); interior membership is decided by
the even-odd ray-casting rule. -/
def contains (polygon : Polygon) (p : Pt) : Bool :=
  if onBoundary polygon p then false
  else if crossingNumber p (edges polygon) % 2 = 1 then true else false

/-- Model of `np.linspace(a, b, n)` (with the default `endpoint=True`):
`n` evenly spaced samples from `a` to `b` inclusive. -/
def linspace (a b : ℚ) (n : ℕ) : List ℚ :=
  if n = 0 then []
  else if n = 1 then [a]
  else (List.range n).map fun i : ℕ => a + (b - a) * (i : ℚ) / ((n : ℚ) - 1)

/-- Model of `np.meshgrid(x, y)`: the pair `(xx, yy)` where `xx` repeats the
row `x` once per entry of `y` and `yy` has one constant row per entry of `y`. -/
def meshgrid (x y : List ℚ) : List (List ℚ) × List (List ℚ) :=
  (y.map fun _ => x, y.map fun v => x.map fun _ => v)

/-- Model of `np.clip(z, lo, hi)` on a 2-D array. -/
def np_clip (lo hi : ℚ) (z : List (List ℚ)) : List (List ℚ) :=
  z.map (List.map fun v => min (max v lo) hi)

/-- Model of `np.where(mask, z, np.nan)`: keep the value where the mask is
true, the NaN sentinel (here `none`) elsewhere. -/
def np_where_mask (mask : List (List Bool)) (z : List (List ℚ)) :
    List (List (Option ℚ)) :=
  List.zipWith (List.zipWith fun m v => if m then some v else none) mask z

/-- `generate_utm_grid` (krigging.py, section 2): project the bounding-box
corners with the lon/lat → UTM transformer, lay out `resolution` evenly spaced
planar coordinates per axis, and mesh them.  The source performs no validation
of `resolution`. -/
def generate_utm_grid (toUTM : Pt → Pt) (lat_min lat_max lon_min lon_max : ℚ)
    (resolution : ℕ) : List (List ℚ) × List (List ℚ) :=
  let xy_min := toUTM (lon_min, lat_min)
  let xy_max := toUTM (lon_max, lat_max)
  let x := linspace xy_min.1 xy_max.1 resolution
  let y := linspace xy_min.2 xy_max.2 resolution
  meshgrid x y

/-- `mask_grid_with_polygon` (krigging.py, section 3): elementwise containment
of each grid site's geographic coordinate in the polygon.  The source flattens,
tests each point and reshapes; for equal-shaped inputs that is the elementwise
`zipWith` below. -/
def mask_grid_with_polygon (lon_grid lat_grid : List (List ℚ))
    (polygon : Polygon) : List (List Bool) :=
  List.zipWith (List.zipWith fun lon lat => contains polygon (lon, lat))
    lon_grid lat_grid

/-- Squared Euclidean distance between two points; the cKDTree of the source
ranks candidate sites by Euclidean distance, equivalently by its square. -/
def dist2 (a b : Pt) : ℚ := (a.1 - b.1) ^ 2 + (a.2 - b.2) ^ 2

/-- The valid (non-NaN) sites of a masked grid, as `(lat, lon, value)` triples
in flattened row-major order: the source flattens `lat_grid`, `lon_grid` and
`z`, and keeps the entries where `z` is not NaN. -/
def valid_sites (lat_grid lon_grid : List (List ℚ))
    (z : List (List (Option ℚ))) : List (ℚ × ℚ × ℚ) :=
  ((lat_grid.flatten).zip ((lon_grid.flatten).zip z.flatten)).filterMap
    fun t => t.2.2.map fun v => (t.1, t.2.1, v)

/-- Of two candidate sites keep the one closer to the query point `q`,
preferring the current one on ties. -/
def closer_site (q : Pt) (s t : ℚ × ℚ × ℚ) : ℚ × ℚ × ℚ :=
  if dist2 (t.1, t.2.1) q < dist2 (s.1, s.2.1) q then t else s

/-- The valid site nearest to `q` among `s :: rest`; models the
`cKDTree.query(..., k=1)` nearest-neighbor lookup of the source. -/
def nearest_site (q : Pt) (s : ℚ × ℚ × ℚ) (rest : List (ℚ × ℚ × ℚ)) :
    ℚ × ℚ × ℚ :=
  rest.foldl (closer_site q) s

/-- `get_nearest_kriging_value` (krigging.py, section 4): drop the NaN cells,
return NaN (`none`) if nothing remains, otherwise the value of the valid site
nearest to `(user_lat, user_lon)` in `(lat, lon)` coordinates. -/
def get_nearest_kriging_value (user_lat user_lon : ℚ)
    (lat_grid lon_grid : List (List ℚ)) (z : List (List (Option ℚ))) :
    Option ℚ :=
  match valid_sites lat_grid lon_grid z with
  | [] => none
  | s :: rest => some (nearest_site (user_lat, user_lon) s rest).2.2

/-- `get_aqi_at_location` (krigging.py, section 5): the nearest valid grid
value together with a flag that is `false` when the query point is inside the
polygon and `true` when the nearest-value fallback was used for an outside
point. -/
def get_aqi_at_location (user_lat user_lon : ℚ)
    (lat_grid lon_grid : List (List ℚ)) (z_masked : List (List (Option ℚ)))
    (polygon : Polygon) : Option ℚ × Bool :=
  if contains polygon (user_lon, user_lat) then
    (get_nearest_kriging_value user_lat user_lon lat_grid lon_grid z_masked,
      false)
  else
    (get_nearest_kriging_value user_lat user_lon lat_grid lon_grid z_masked,
      true)

/-- The two variogram models the source hands to pykrige. -/
inductive VariogramModel : Type
  | linear
  | spherical
deriving DecidableEq

/-- One row of the station dataframe `df`: columns `lat`, `lon`, `aqi`. -/
structure Station : Type where
  lat : ℚ
  lon : ℚ
  aqi : ℚ
deriving DecidableEq

/-- The pykrige backend `OrdinaryKriging(xs, ys, values, variogram_model=m)
.execute("grid", xpts, ypts)`, as a parameter: given the model, the station
planar coordinates and values, and the grid axis coordinates, it returns
`some z` (rows indexed by `ypts`, columns by `xpts`) on success and `none`
when the solver raises. -/
abbrev KrigeFn : Type :=
  VariogramModel → List ℚ → List ℚ → List ℚ → List ℚ → List ℚ →
    Option (List (List ℚ))

/-- Station planar x coordinates: `transformer_to_utm.transform(df.lon, df.lat)`,
first component. -/
def station_xs (toUTM : Pt → Pt) (df : List Station) : List ℚ :=
  df.map fun s => (toUTM (s.lon, s.lat)).1

/-- Station planar y coordinates. -/
def station_ys (toUTM : Pt → Pt) (df : List Station) : List ℚ :=
  df.map fun s => (toUTM (s.lon, s.lat)).2

/-- The `aqi` column of the station dataframe. -/
def station_values (df : List Station) : List ℚ :=
  df.map Station.aqi

/-- `x_grid[0]`: the x axis coordinates handed to `OK.execute`. -/
def grid_xpts (g : List (List ℚ) × List (List ℚ)) : List ℚ :=
  g.1.headD []

/-- `y_grid[:, 0]`: the y axis coordinates handed to `OK.execute`. -/
def grid_ypts (g : List (List ℚ) × List (List ℚ)) : List ℚ :=
  g.2.map fun row => row.headD 0

/-- The try/except block of `perform_kriging_correct`: run ordinary kriging
with the linear variogram model; if that raises, retry once with the spherical
model; the result is `none` exactly when both attempts raise. -/
def kriging_z (toUTM : Pt → Pt) (krige : KrigeFn) (df : List Station)
    (bounds : ℚ × ℚ × ℚ × ℚ) (resolution : ℕ) : Option (List (List ℚ)) :=
  let xs := station_xs toUTM df
  let ys := station_ys toUTM df
  let values := station_values df
  let g := generate_utm_grid toUTM bounds.1 bounds.2.1 bounds.2.2.1
    bounds.2.2.2 resolution
  match krige VariogramModel.linear xs ys values (grid_xpts g) (grid_ypts g)
      with
  | some z => some z
  | none =>
      krige VariogramModel.spherical xs ys values (grid_xpts g) (grid_ypts g)

/-- The kriging output of `perform_kriging_correct` after the
`np.clip(z, 0, 999)` post-processing step and before the boundary mask. -/
def clipped_kriging_grid (toUTM : Pt → Pt) (krige : KrigeFn)
    (df : List Station) (bounds : ℚ × ℚ × ℚ × ℚ) (resolution : ℕ) :
    Option (List (List ℚ)) :=
  (kriging_z toUTM krige df bounds resolution).map (np_clip 0 999)

/-- Elementwise `transformer_to_latlon.transform(x_grid, y_grid)`:
the pair `(lon_grid, lat_grid)`. -/
def to_latlon_grid (toLatLon : Pt → Pt) (x_grid y_grid : List (List ℚ)) :
    List (List ℚ) × List (List ℚ) :=
  (List.zipWith (List.zipWith fun x y => (toLatLon (x, y)).1) x_grid y_grid,
    List.zipWith (List.zipWith fun x y => (toLatLon (x, y)).2) x_grid y_grid)

/-- The tail of `perform_kriging_correct` after a successful solve: clip the
predictions into [0, 999], convert the planar grid back to lon/lat, mask with
the boundary polygon, and return `(lon_grid, lat_grid, z_masked)`. -/
def postprocess (toUTM toLatLon : Pt → Pt) (bounds : ℚ × ℚ × ℚ × ℚ)
    (polygon : Polygon) (resolution : ℕ) (z : List (List ℚ)) :
    List (List ℚ) × List (List ℚ) × List (List (Option ℚ)) :=
  let zc := np_clip 0 999 z
  let g := generate_utm_grid toUTM bounds.1 bounds.2.1 bounds.2.2.1
    bounds.2.2.2 resolution
  let ll := to_latlon_grid toLatLon g.1 g.2
  let mask := mask_grid_with_polygon ll.1 ll.2 polygon
  (ll.1, ll.2, np_where_mask mask zc)

/-- `perform_kriging_correct` (krigging.py, section 6).  `bounds` is
`(LAT_MIN, LAT_MAX, LON_MIN, LON_MAX)`.  Fewer than 3 stations raise the
insufficient-station `ValueError` before anything else runs; a solver failure
of both variogram models propagates as an interpolation failure. -/
def perform_kriging_correct (toUTM toLatLon : Pt → Pt) (krige : KrigeFn)
    (df : List Station) (bounds : ℚ × ℚ × ℚ × ℚ) (polygon : Polygon)
    (resolution : ℕ) :
    Except String (List (List ℚ) × List (List ℚ) × List (List (Option ℚ))) :=
  if df.length < 3 then
    Except.error "Not enough AQI stations for kriging interpolation."
  else
    match kriging_z toUTM krige df bounds resolution with
    | some z =>
        Except.ok (postprocess toUTM toLatLon bounds polygon resolution z)
    | none => Except.error "InterpolationFailure"

/-- Row-then-column lookup in a 2-D list. -/
def cell2 {α : Type} (g : List (List α)) (i j : ℕ) : Option α :=
  g[i]?.bind fun row => row[j]?

/-! ### Generic lookup lemmas -/

theorem getElem2_zipWith {α β γ : Type} (f : α → β → γ) {a : List α}
    {b : List β} {i : ℕ} {x : α} {y : β} (ha : a[i]? = some x)
    (hb : b[i]? = some y) : (List.zipWith f a b)[i]? = some (f x y) := by
  rw [List.getElem?_zipWith, ha, hb]

theorem getElem2_zipWith_inv {α β γ : Type} {f : α → β → γ} {a : List α}
    {b : List β} {i : ℕ} {c : γ} (h : (List.zipWith f a b)[i]? = some c) :
    ∃ x y, a[i]? = some x ∧ b[i]? = some y ∧ c = f x y := by
  rw [List.getElem?_zipWith] at h
  cases ha : a[i]? with
  | none => rw [ha] at h; exact absurd h (by simp)
  | some x =>
    cases hb : b[i]? with
    | none => rw [ha, hb] at h; exact absurd h (by simp)
    | some y =>
      rw [ha, hb] at h
      exact ⟨x, y, rfl, rfl, (Option.some.inj h).symm⟩

theorem cell2_zipWith {α β γ : Type} (f : α → β → γ) {a : List (List α)}
    {b : List (List β)} {i j : ℕ} {x : α} {y : β} (ha : cell2 a i j = some x)
    (hb : cell2 b i j = some y) :
    cell2 (List.zipWith (List.zipWith f) a b) i j = some (f x y) := by
  unfold cell2 at *
  obtain ⟨ra, hra, hja⟩ := Option.bind_eq_some.mp ha
  obtain ⟨rb, hrb, hjb⟩ := Option.bind_eq_some.mp hb
  rw [getElem2_zipWith (List.zipWith f) hra hrb, Option.some_bind]
  exact getElem2_zipWith f hja hjb

theorem cell2_zipWith_inv {α β γ : Type} {f : α → β → γ} {a : List (List α)}
    {b : List (List β)} {i j : ℕ} {c : γ}
    (h : cell2 (List.zipWith (List.zipWith f) a b) i j = some c) :
    ∃ x y, cell2 a i j = some x ∧ cell2 b i j = some y ∧ c = f x y := by
  unfold cell2 at *
  obtain ⟨row, hrow, hj⟩ := Option.bind_eq_some.mp h
  obtain ⟨ra, rb, hra, hrb, hrc⟩ := getElem2_zipWith_inv hrow
  subst hrc
  obtain ⟨x, y, hx, hy, hc⟩ := getElem2_zipWith_inv hj
  exact ⟨x, y, by rw [hra]; simpa using hx, by rw [hrb]; simpa using hy, hc⟩

theorem cell2_map {α β : Type} (f : α → β) {a : List (List α)} {i j : ℕ}
    {x : α} (ha : cell2 a i j = some x) :
    cell2 (a.map (List.map f)) i j = some (f x) := by
  unfold cell2 at *
  obtain ⟨row, hrow, hj⟩ := Option.bind_eq_some.mp ha
  have h1 : (a.map (List.map f))[i]? = some (row.map f) := by
    rw [List.getElem?_map, hrow]; rfl
  rw [h1, Option.some_bind, List.getElem?_map, hj]
  rfl

theorem cell2_map_inv {α β : Type} {f : α → β} {a : List (List α)} {i j : ℕ}
    {c : β} (h : cell2 (a.map (List.map f)) i j = some c) :
    ∃ x, cell2 a i j = some x ∧ c = f x := by
  unfold cell2 at *
  obtain ⟨row, hrow, hj⟩ := Option.bind_eq_some.mp h
  rw [List.getElem?_map] at hrow
  obtain ⟨ra, hra, hrow2⟩ := Option.map_eq_some'.mp hrow
  subst hrow2
  rw [List.getElem?_map] at hj
  obtain ⟨x, hx, hj2⟩ := Option.map_eq_some'.mp hj
  exact ⟨x, by rw [hra, Option.some_bind, hx], hj2.symm⟩

/-! ### Structural lemmas about the embedded pipeline -/

theorem linspace_length (a b : ℚ) (n : ℕ) : (linspace a b n).length = n := by
  unfold linspace
  by_cases h0 : n = 0
  · simp [h0]
  · by_cases h1 : n = 1
    · simp [h0, h1]
    · rw [if_neg h0, if_neg h1, List.length_map, List.length_range]

theorem contains_eq_false_of_onBoundary {polygon : Polygon} {p : Pt}
    (hb : onBoundary polygon p = true) : contains polygon p = false := by
  simp [contains, hb]

/-- Inversion of a successful `perform_kriging_correct` run into its pieces. -/
theorem perform_ok_inv {toUTM toLatLon : Pt → Pt} {krige : KrigeFn}
    {df : List Station} {bounds : ℚ × ℚ × ℚ × ℚ} {polygon : Polygon}
    {resolution : ℕ} {lon_grid lat_grid : List (List ℚ)}
    {zm : List (List (Option ℚ))}
    (hok : perform_kriging_correct toUTM toLatLon krige df bounds polygon
      resolution = Except.ok (lon_grid, lat_grid, zm)) :
    ∃ z, kriging_z toUTM krige df bounds resolution = some z ∧
      lon_grid = (to_latlon_grid toLatLon
        (generate_utm_grid toUTM bounds.1 bounds.2.1 bounds.2.2.1 bounds.2.2.2
          resolution).1
        (generate_utm_grid toUTM bounds.1 bounds.2.1 bounds.2.2.1 bounds.2.2.2
          resolution).2).1 ∧
      lat_grid = (to_latlon_grid toLatLon
        (generate_utm_grid toUTM bounds.1 bounds.2.1 bounds.2.2.1 bounds.2.2.2
          resolution).1
        (generate_utm_grid toUTM bounds.1 bounds.2.1 bounds.2.2.1 bounds.2.2.2
          resolution).2).2 ∧
      zm = np_where_mask (mask_grid_with_polygon lon_grid lat_grid polygon)
        (np_clip 0 999 z) := by
  unfold perform_kriging_correct at hok
  by_cases h3 : df.length < 3
  · rw [if_pos h3] at hok
    exact absurd hok (by simp)
  · rw [if_neg h3] at hok
    cases hz : kriging_z toUTM krige df bounds resolution with
    | none => rw [hz] at hok; exact absurd hok (by simp)
    | some z =>
      rw [hz] at hok
      have h := Except.ok.inj hok
      have h1 : lon_grid
          = (postprocess toUTM toLatLon bounds polygon resolution z).1 := by
        rw [h]
      have h2 : lat_grid
          = (postprocess toUTM toLatLon bounds polygon resolution z).2.1 := by
        rw [h]
      have h3 : zm
          = (postprocess toUTM toLatLon bounds polygon resolution z).2.2 := by
        rw [h]
      refine ⟨z, rfl, h1, h2, ?_⟩
      rw [h1, h2]
      exact h3

theorem closer_site_cases (q : Pt) (s t : ℚ × ℚ × ℚ) :
    closer_site q s t = s ∨ closer_site q s t = t := by
  unfold closer_site
  split
  · exact Or.inr rfl
  · exact Or.inl rfl

theorem closer_site_le_left (q : Pt) (s t : ℚ × ℚ × ℚ) :
    dist2 ((closer_site q s t).1, (closer_site q s t).2.1) q
      ≤ dist2 (s.1, s.2.1) q := by
  unfold closer_site
  split
  · exact le_of_lt (by assumption)
  · exact le_refl _

theorem closer_site_le_right (q : Pt) (s t : ℚ × ℚ × ℚ) :
    dist2 ((closer_site q s t).1, (closer_site q s t).2.1) q
      ≤ dist2 (t.1, t.2.1) q := by
  unfold closer_site
  split
  · exact le_refl _
  · exact le_of_not_lt (by assumption)

theorem nearest_site_cons (q : Pt) (s t : ℚ × ℚ × ℚ)
    (ts : List (ℚ × ℚ × ℚ)) :
    nearest_site q s (t :: ts) = nearest_site q (closer_site q s t) ts := rfl

theorem nearest_site_mem (q : Pt) :
    ∀ (rest : List (ℚ × ℚ × ℚ)) (s : ℚ × ℚ × ℚ),
      nearest_site q s rest ∈ s :: rest := by
  intro rest
  induction rest with
  | nil => intro s; simp [nearest_site]
  | cons t ts ih =>
    intro s
    rw [nearest_site_cons]
    have h := ih (closer_site q s t)
    rcases List.mem_cons.mp h with h1 | h1
    · rcases closer_site_cases q s t with h2 | h2
      · rw [List.mem_cons]
        exact Or.inl (h1.trans h2)
      · rw [List.mem_cons, List.mem_cons]
        exact Or.inr (Or.inl (h1.trans h2))
    · rw [List.mem_cons, List.mem_cons]
      exact Or.inr (Or.inr h1)

theorem nearest_site_le (q : Pt) :
    ∀ (rest : List (ℚ × ℚ × ℚ)) (s u : ℚ × ℚ × ℚ), u ∈ s :: rest →
      dist2 ((nearest_site q s rest).1, (nearest_site q s rest).2.1) q
        ≤ dist2 (u.1, u.2.1) q := by
  intro rest
  induction rest with
  | nil =>
    intro s u hu
    rw [List.mem_singleton] at hu
    subst hu
    simp [nearest_site]
  | cons t ts ih =>
    intro s u hu
    rw [nearest_site_cons]
    have hbase : ∀ w : ℚ × ℚ × ℚ,
        dist2 ((nearest_site q (closer_site q s t) ts).1,
          (nearest_site q (closer_site q s t) ts).2.1) q
        ≤ dist2 ((closer_site q s t).1, (closer_site q s t).2.1) q :=
      fun _ => ih (closer_site q s t) (closer_site q s t)
        (List.mem_cons_self _ _)
    rcases List.mem_cons.mp hu with h1 | h1
    · subst h1
      exact le_trans (hbase u) (closer_site_le_left q u t)
    · rcases List.mem_cons.mp h1 with h2 | h2
      · subst h2
        exact le_trans (hbase u) (closer_site_le_right q s u)
      · exact ih (closer_site q s t) u (List.mem_cons_of_mem _ h2)

theorem valid_sites_eq_nil (lat_grid lon_grid : List (List ℚ))
    (z : List (List (Option ℚ)))
    (h : ∀ c ∈ z.flatten, c = (none : Option ℚ)) :
    valid_sites lat_grid lon_grid z = [] := by
  unfold valid_sites
  rw [List.filterMap_eq_nil_iff]
  intro t ht
  have h1 : t.2 ∈ (lon_grid.flatten).zip z.flatten :=
    (List.of_mem_zip ht).2
  have h2 : t.2.2 ∈ z.flatten := (List.of_mem_zip h1).2
  rw [h t.2.2 h2]
  rfl

/-- The value component of `get_aqi_at_location` is always the nearest-valid
lookup, whichever branch is taken. -/
theorem get_aqi_fst (user_lat user_lon : ℚ) (lat_grid lon_grid : List (List ℚ))
    (z_masked : List (List (Option ℚ))) (polygon : Polygon) :
    (get_aqi_at_location user_lat user_lon lat_grid lon_grid z_masked
      polygon).1
      = get_nearest_kriging_value user_lat user_lon lat_grid lon_grid
        z_masked := by
  unfold get_aqi_at_location
  split <;> rfl

/-! ### Concrete fixtures used by the witnesses and counterexamples -/

/-- An identity transformer standing in for a concrete projection in the
witnesses; the claims quantify over the transformer. -/
def wT : Pt → Pt := fun p => p

/-- A square boundary with corners `(-1, -1)` and `(3, 3)`. -/
def wPoly : Polygon := [(-1, -1), (3, -1), (3, 3), (-1, 3)]

/-- Three stations; the first sits at the grid origin and reports an AQI of
1500, above the clamping ceiling. -/
def wDf : List Station := [⟨0, 0, 1500⟩, ⟨1, 1, 150⟩, ⟨2, 1, 250⟩]

/-- Like `wDf` but the first station's value lies inside `[0, 999]`. -/
def wDf2 : List Station := [⟨0, 0, 50⟩, ⟨1, 1, 150⟩, ⟨2, 1, 250⟩]

/-- `(LAT_MIN, LAT_MAX, LON_MIN, LON_MAX)` for the fixtures. -/
def wBounds : ℚ × ℚ × ℚ × ℚ := (0, 2, 0, 2)

/-- A kriging backend that succeeds at once with the single-cell grid
`[[1500]]`; on the fixture run with `wDf` and resolution 1 this is exact at
the one grid node, which coincides with the first station. -/
def wKrige : KrigeFn := fun _ _ _ _ _ _ => some [[1500]]

/-- A kriging backend succeeding with `[[50]]`; exact at the grid node for
`wDf2`. -/
def wKrige2 : KrigeFn := fun _ _ _ _ _ _ => some [[50]]

/-- A kriging backend whose linear-variogram solve raises and whose spherical
retry succeeds. -/
def wKrigeF : KrigeFn := fun m _ _ _ _ _ =>
  match m with
  | VariogramModel.linear => none
  | VariogramModel.spherical => some [[1500]]

/-- A kriging backend that always raises. -/
def wKrigeNone : KrigeFn := fun _ _ _ _ _ _ => none

/-- Evaluation of the fixture pipeline run: the single grid site is the planar
point `(0, 0)`, its value 1500 is clamped to 999, and the site is inside
`wPoly`, so it survives the mask. -/
theorem wRun : perform_kriging_correct wT wT wKrige wDf wBounds wPoly 1
    = Except.ok ([[0]], [[0]], [[some 999]]) := by
  norm_num [perform_kriging_correct, kriging_z, postprocess, wT, wKrige, wDf,
    wBounds, station_xs, station_ys, station_values, generate_utm_grid,
    linspace, meshgrid, grid_xpts, grid_ypts, np_clip, to_latlon_grid,
    mask_grid_with_polygon, np_where_mask, contains, onBoundary, edges,
    onSegment, crossingNumber, crossesRay, wPoly]

/-! ### The claims -/

/-- C2: for every input station dataframe with fewer than 3 stations (0, 1 or
2 rows), `perform_kriging_correct` raises the insufficient-station-data error
and returns no grid; the interpolation backend is never consulted (the result
is this error for every `krige`). -/
theorem C2_insufficient_stations (toUTM toLatLon : Pt → Pt) (krige : KrigeFn)
    (df : List Station) (bounds : ℚ × ℚ × ℚ × ℚ) (polygon : Polygon)
    (resolution : ℕ) (h : df.length < 3) :
    perform_kriging_correct toUTM toLatLon krige df bounds polygon resolution
      = Except.error "Not enough AQI stations for kriging interpolation." := by
  unfold perform_kriging_correct
  rw [if_pos h]

/-- Witness for C2 at a concrete input: the empty station list is rejected. -/
theorem C2_insufficient_stations_witness :
    perform_kriging_correct wT wT wKrige [] wBounds wPoly 5
      = Except.error "Not enough AQI stations for kriging interpolation." :=
  C2_insufficient_stations wT wT wKrige [] wBounds wPoly 5 (by norm_num)

/-- C5: the extrapolated flag returned by `get_aqi_at_location` is exactly the
negation of polygon containment: `true` for every query coordinate outside the
region boundary (containment false), `false` for every coordinate strictly
inside it — irrespective of the grid contents. -/
theorem C5_extrapolated_flag (user_lat user_lon : ℚ)
    (lat_grid lon_grid : List (List ℚ)) (z_masked : List (List (Option ℚ)))
    (polygon : Polygon) :
    (get_aqi_at_location user_lat user_lon lat_grid lon_grid z_masked
      polygon).2 = !contains polygon (user_lon, user_lat) := by
  unfold get_aqi_at_location
  cases h : contains polygon (user_lon, user_lat) <;> simp [h]

/-- C6: whenever the masked grid has at least one valid site, the point query
returns the value of a valid site whose squared Euclidean distance to the
query coordinate, taken over `(latitude, longitude)` pairs, is minimal among
all valid sites — the brute-force nearest-neighbor answer; and the value
component of `get_aqi_at_location` is that same nearest-site value. -/
theorem C6_nearest_valid_site (user_lat user_lon : ℚ)
    (lat_grid lon_grid : List (List ℚ)) (z : List (List (Option ℚ)))
    (polygon : Polygon) (h : valid_sites lat_grid lon_grid z ≠ []) :
    ∃ t, t ∈ valid_sites lat_grid lon_grid z
      ∧ get_nearest_kriging_value user_lat user_lon lat_grid lon_grid z
          = some t.2.2
      ∧ (get_aqi_at_location user_lat user_lon lat_grid lon_grid z polygon).1
          = some t.2.2
      ∧ ∀ u ∈ valid_sites lat_grid lon_grid z,
          dist2 (t.1, t.2.1) (user_lat, user_lon)
            ≤ dist2 (u.1, u.2.1) (user_lat, user_lon) := by
  cases hv : valid_sites lat_grid lon_grid z with
  | nil => exact absurd hv h
  | cons s rest =>
    refine ⟨nearest_site (user_lat, user_lon) s rest, ?_, ?_, ?_, ?_⟩
    · exact nearest_site_mem (user_lat, user_lon) rest s
    · unfold get_nearest_kriging_value
      rw [hv]
    · rw [get_aqi_fst]
      unfold get_nearest_kriging_value
      rw [hv]
    · intro u hu
      exact nearest_site_le (user_lat, user_lon) rest s u hu

/-- Witness for C6 on a 1×2 grid with one masked and one valid cell. -/
theorem C6_nearest_valid_site_witness :
    ∃ t, t ∈ valid_sites [[0, 0]] [[0, 1]] [[none, some 7]]
      ∧ get_nearest_kriging_value 5 5 [[0, 0]] [[0, 1]] [[none, some 7]]
          = some t.2.2
      ∧ (get_aqi_at_location 5 5 [[0, 0]] [[0, 1]] [[none, some 7]] wPoly).1
          = some t.2.2
      ∧ ∀ u ∈ valid_sites [[0, 0]] [[0, 1]] [[none, some 7]],
          dist2 (t.1, t.2.1) (5, 5) ≤ dist2 (u.1, u.2.1) (5, 5) :=
  C6_nearest_valid_site 5 5 [[0, 0]] [[0, 1]] [[none, some 7]] wPoly
    (by norm_num [valid_sites, List.filterMap_cons])

/-- C7: if the masked grid has no valid (non-NaN) cell at all, the point query
returns the NaN sentinel (`none`); the embedded function is total, so no
error can be raised. -/
theorem C7_empty_grid_undefined (user_lat user_lon : ℚ)
    (lat_grid lon_grid : List (List ℚ)) (z : List (List (Option ℚ)))
    (h : ∀ c ∈ z.flatten, c = (none : Option ℚ)) :
    get_nearest_kriging_value user_lat user_lon lat_grid lon_grid z
      = none := by
  unfold get_nearest_kriging_value
  rw [valid_sites_eq_nil lat_grid lon_grid z h]

/-- Witness for C7 on an all-NaN 1×1 grid. -/
theorem C7_empty_grid_undefined_witness :
    get_nearest_kriging_value 5 5 [[0]] [[0]] [[none]] = none :=
  C7_empty_grid_undefined 5 5 [[0]] [[0]] [[none]] (by simp)

/-- C3: every defined value of the masked grid returned by a successful
`perform_kriging_correct` run lies within `[0, 999]`. -/
theorem C3_clamped_range (toUTM toLatLon : Pt → Pt) (krige : KrigeFn)
    (df : List Station) (bounds : ℚ × ℚ × ℚ × ℚ) (polygon : Polygon)
    (resolution : ℕ) (lon_grid lat_grid : List (List ℚ))
    (zm : List (List (Option ℚ))) (i j : ℕ) (q : ℚ)
    (hok : perform_kriging_correct toUTM toLatLon krige df bounds polygon
      resolution = Except.ok (lon_grid, lat_grid, zm))
    (hq : cell2 zm i j = some (some q)) :
    0 ≤ q ∧ q ≤ 999 := by
  obtain ⟨z, hz, h1, h2, h3⟩ := perform_ok_inv hok
  subst h3
  unfold np_where_mask at hq
  obtain ⟨m, v, hm, hv, hc⟩ := cell2_zipWith_inv hq
  cases m with
  | false => simp at hc
  | true =>
    simp only [if_true] at hc
    have hqv : q = v := by simpa using hc
    subst hqv
    unfold np_clip at hv
    obtain ⟨u, hu, he⟩ := cell2_map_inv hv
    subst he
    exact ⟨le_min (le_max_right u 0) (by norm_num), min_le_right _ 999⟩

/-- Witness for C3 on the fixture run: the surviving cell value 999 is in
range. -/
theorem C3_clamped_range_witness : (0 : ℚ) ≤ 999 ∧ (999 : ℚ) ≤ 999 :=
  C3_clamped_range wT wT wKrige wDf wBounds wPoly 1 [[0]] [[0]] [[some 999]]
    0 0 999 wRun rfl

/-- C4: in the masked grid returned by a successful `perform_kriging_correct`
run, a grid site carries a defined value exactly when its geographic
coordinate is contained in the boundary polygon. -/
theorem C4_mask_iff_contains (toUTM toLatLon : Pt → Pt) (krige : KrigeFn)
    (df : List Station) (bounds : ℚ × ℚ × ℚ × ℚ) (polygon : Polygon)
    (resolution : ℕ) (lon_grid lat_grid : List (List ℚ))
    (zm : List (List (Option ℚ))) (i j : ℕ) (cell : Option ℚ) (lo la : ℚ)
    (hok : perform_kriging_correct toUTM toLatLon krige df bounds polygon
      resolution = Except.ok (lon_grid, lat_grid, zm))
    (hcell : cell2 zm i j = some cell)
    (hlo : cell2 lon_grid i j = some lo)
    (hla : cell2 lat_grid i j = some la) :
    cell.isSome = contains polygon (lo, la) := by
  obtain ⟨z, hz, h1, h2, h3⟩ := perform_ok_inv hok
  subst h3
  unfold np_where_mask at hcell
  obtain ⟨m, v, hm, hv, hc⟩ := cell2_zipWith_inv hcell
  unfold mask_grid_with_polygon at hm
  obtain ⟨lo2, la2, hlo2, hla2, hmv⟩ := cell2_zipWith_inv hm
  have elo : lo2 = lo := Option.some.inj (hlo2.symm.trans hlo)
  have ela : la2 = la := Option.some.inj (hla2.symm.trans hla)
  subst elo
  subst ela
  rw [hc, hmv]
  cases contains polygon (lo2, la2) <;> rfl

/-- Witness for C4 on the fixture run: the surviving cell is defined and its
coordinate `(0, 0)` is inside the fixture polygon. -/
theorem C4_mask_iff_contains_witness :
    (some (999 : ℚ)).isSome = contains wPoly (0, 0) :=
  C4_mask_iff_contains wT wT wKrige wDf wBounds wPoly 1 [[0]] [[0]]
    [[some 999]] 0 0 (some 999) 0 0 wRun rfl rfl rfl

/-- The try/except structure of `kriging_z`, with the let bindings spelled
out. -/
theorem kriging_z_eq (toUTM : Pt → Pt) (krige : KrigeFn) (df : List Station)
    (bounds : ℚ × ℚ × ℚ × ℚ) (resolution : ℕ) :
    kriging_z toUTM krige df bounds resolution
      = match krige VariogramModel.linear (station_xs toUTM df)
          (station_ys toUTM df) (station_values df)
          (grid_xpts (generate_utm_grid toUTM bounds.1 bounds.2.1
            bounds.2.2.1 bounds.2.2.2 resolution))
          (grid_ypts (generate_utm_grid toUTM bounds.1 bounds.2.1
            bounds.2.2.1 bounds.2.2.2 resolution)) with
        | some z => some z
        | none => krige VariogramModel.spherical (station_xs toUTM df)
            (station_ys toUTM df) (station_values df)
            (grid_xpts (generate_utm_grid toUTM bounds.1 bounds.2.1
              bounds.2.2.1 bounds.2.2.2 resolution))
            (grid_ypts (generate_utm_grid toUTM bounds.1 bounds.2.1
              bounds.2.2.1 bounds.2.2.2 resolution)) := rfl

/-- C8: with at least 3 stations, when the linear-variogram solve raises, the
interpolator retries exactly once with the spherical variogram on the same
inputs: if that retry succeeds a grid is still returned, and only if it also
raises does the hard interpolation failure propagate to the caller. -/
theorem C8_spherical_fallback (toUTM toLatLon : Pt → Pt) (krige : KrigeFn)
    (df : List Station) (bounds : ℚ × ℚ × ℚ × ℚ) (polygon : Polygon)
    (resolution : ℕ) (z : List (List ℚ))
    (h3 : ¬ df.length < 3)
    (hlin : krige VariogramModel.linear (station_xs toUTM df)
      (station_ys toUTM df) (station_values df)
      (grid_xpts (generate_utm_grid toUTM bounds.1 bounds.2.1 bounds.2.2.1
        bounds.2.2.2 resolution))
      (grid_ypts (generate_utm_grid toUTM bounds.1 bounds.2.1 bounds.2.2.1
        bounds.2.2.2 resolution)) = none) :
    (krige VariogramModel.spherical (station_xs toUTM df)
        (station_ys toUTM df) (station_values df)
        (grid_xpts (generate_utm_grid toUTM bounds.1 bounds.2.1 bounds.2.2.1
          bounds.2.2.2 resolution))
        (grid_ypts (generate_utm_grid toUTM bounds.1 bounds.2.1 bounds.2.2.1
          bounds.2.2.2 resolution)) = some z →
      perform_kriging_correct toUTM toLatLon krige df bounds polygon
        resolution
        = Except.ok (postprocess toUTM toLatLon bounds polygon resolution z))
    ∧ (krige VariogramModel.spherical (station_xs toUTM df)
        (station_ys toUTM df) (station_values df)
        (grid_xpts (generate_utm_grid toUTM bounds.1 bounds.2.1 bounds.2.2.1
          bounds.2.2.2 resolution))
        (grid_ypts (generate_utm_grid toUTM bounds.1 bounds.2.1 bounds.2.2.1
          bounds.2.2.2 resolution)) = none →
      perform_kriging_correct toUTM toLatLon krige df bounds polygon
        resolution = Except.error "InterpolationFailure") := by
  constructor
  · intro hs
    have hk : kriging_z toUTM krige df bounds resolution = some z := by
      rw [kriging_z_eq, hlin, hs]
    unfold perform_kriging_correct
    rw [if_neg h3, hk]
  · intro hs
    have hk : kriging_z toUTM krige df bounds resolution = none := by
      rw [kriging_z_eq, hlin, hs]
    unfold perform_kriging_correct
    rw [if_neg h3, hk]

/-- Witness for C8: a backend whose linear solve raises and whose spherical
retry succeeds still yields a grid. -/
theorem C8_spherical_fallback_witness :
    perform_kriging_correct wT wT wKrigeF wDf wBounds wPoly 1
      = Except.ok (postprocess wT wT wBounds wPoly 1 [[1500]]) :=
  (C8_spherical_fallback wT wT wKrigeF wDf wBounds wPoly 1 [[1500]]
    (by norm_num [wDf]) rfl).1 rfl

/-- C1 (amended): when a prediction-grid node's planar coordinates coincide
exactly with a station's planar coordinates and the kriging backend is exact
there (pykrige's documented `exact_values=True` behavior, taken as the
hypothesis `hexact`), the clamped pre-mask grid value at that node equals the
station's observed value clamped into `[0, 999]` — hence equals the observed
value itself exactly when that value already lies in `[0, 999]`. -/
theorem C1_exact_within_clamp (toUTM : Pt → Pt) (krige : KrigeFn)
    (df : List Station) (bounds : ℚ × ℚ × ℚ × ℚ) (resolution : ℕ)
    (z : List (List ℚ)) (i j k : ℕ) (sx sy v : ℚ)
    (h3 : 3 ≤ df.length)
    (hz : kriging_z toUTM krige df bounds resolution = some z)
    (hsx : (station_xs toUTM df)[k]? = some sx)
    (hsy : (station_ys toUTM df)[k]? = some sy)
    (hsv : (station_values df)[k]? = some v)
    (hgx : (grid_xpts (generate_utm_grid toUTM bounds.1 bounds.2.1
      bounds.2.2.1 bounds.2.2.2 resolution))[j]? = some sx)
    (hgy : (grid_ypts (generate_utm_grid toUTM bounds.1 bounds.2.1
      bounds.2.2.1 bounds.2.2.2 resolution))[i]? = some sy)
    (hexact : cell2 z i j = some v) :
    (clipped_kriging_grid toUTM krige df bounds resolution).bind
      (fun zc => cell2 zc i j) = some (min (max v 0) 999) := by
  unfold clipped_kriging_grid
  rw [hz, Option.map_some', Option.some_bind]
  unfold np_clip
  exact cell2_map _ hexact

/-- Witness for C1: a station value of 50 at the fixture grid node is
reproduced unchanged through the clamp. -/
theorem C1_exact_within_clamp_witness :
    (clipped_kriging_grid wT wKrige2 wDf2 wBounds 1).bind
      (fun zc => cell2 zc 0 0) = some (min (max 50 0) 999) :=
  C1_exact_within_clamp wT wKrige2 wDf2 wBounds 1 [[50]] 0 0 0 0 0 50
    (by norm_num [wDf2]) rfl rfl rfl rfl rfl rfl rfl

/-- Counterexample to C1 as stated: the fixture station at the grid origin
observes 1500 and the backend is exact there (the raw kriging value at the
coinciding node is 1500), yet after clamping the grid carries 999 ≠ 1500. -/
theorem C1_counterexample :
    3 ≤ wDf.length
    ∧ (station_xs wT wDf)[0]? = some 0
    ∧ (station_ys wT wDf)[0]? = some 0
    ∧ (station_values wDf)[0]? = some 1500
    ∧ (grid_xpts (generate_utm_grid wT wBounds.1 wBounds.2.1 wBounds.2.2.1
        wBounds.2.2.2 1))[0]? = some 0
    ∧ (grid_ypts (generate_utm_grid wT wBounds.1 wBounds.2.1 wBounds.2.2.1
        wBounds.2.2.2 1))[0]? = some 0
    ∧ kriging_z wT wKrige wDf wBounds 1 = some [[1500]]
    ∧ cell2 [[(1500 : ℚ)]] 0 0 = some 1500
    ∧ (clipped_kriging_grid wT wKrige wDf wBounds 1).bind
        (fun zc => cell2 zc 0 0) = some 999
    ∧ (999 : ℚ) ≠ 1500 := by
  refine ⟨by norm_num [wDf], rfl, rfl, rfl, rfl, rfl, rfl, rfl, ?_, by
    norm_num⟩
  norm_num [clipped_kriging_grid, kriging_z, wKrige, np_clip, cell2]

theorem map_length_const_rows {α β : Type} (g : α → List β) (y : List α)
    (n : ℕ) (hg : ∀ v, (g v).length = n) (hy : y.length = n) :
    (y.map g).map List.length = List.replicate n n := by
  rw [List.map_map, show (List.length ∘ g) = fun _ => n from funext fun v =>
    hg v, List.map_const', hy]

/-- The Grid Builder always returns a `resolution × resolution` lattice: both
returned arrays have `resolution` rows of `resolution` entries each. -/
theorem generate_utm_grid_shape (toUTM : Pt → Pt)
    (lat_min lat_max lon_min lon_max : ℚ) (n : ℕ) :
    (generate_utm_grid toUTM lat_min lat_max lon_min lon_max n).1.map
        List.length = List.replicate n n
    ∧ (generate_utm_grid toUTM lat_min lat_max lon_min lon_max n).2.map
        List.length = List.replicate n n := by
  simp only [generate_utm_grid, meshgrid]
  constructor
  · exact map_length_const_rows _ _ _ (fun _ => linspace_length _ _ _)
      (linspace_length _ _ _)
  · exact map_length_const_rows _ _ _
      (fun v => by rw [List.length_map]; exact linspace_length _ _ _)
      (linspace_length _ _ _)

/-- C9 (amended): for a resolution `N < 2` the Grid Builder raises no error at
all; it returns a degenerate `N × N` grid (empty for `N = 0`, a single corner
point for `N = 1`). -/
theorem C9_degenerate_grid (toUTM : Pt → Pt)
    (lat_min lat_max lon_min lon_max : ℚ) (n : ℕ) (h : n < 2) :
    (generate_utm_grid toUTM lat_min lat_max lon_min lon_max n).1.map
        List.length = List.replicate n n
    ∧ (generate_utm_grid toUTM lat_min lat_max lon_min lon_max n).2.map
        List.length = List.replicate n n :=
  generate_utm_grid_shape toUTM lat_min lat_max lon_min lon_max n

/-- Witness for C9 at resolution 1. -/
theorem C9_degenerate_grid_witness :
    (generate_utm_grid wT 0 1 0 1 1).1.map List.length = List.replicate 1 1
    ∧ (generate_utm_grid wT 0 1 0 1 1).2.map List.length
        = List.replicate 1 1 :=
  C9_degenerate_grid wT 0 1 0 1 1 (by norm_num)

/-- Counterexample to C9 as stated: at resolution 1 (< 2) the Grid Builder
does not fail — it returns the 1×1 grid of the projected lower-left corner. -/
theorem C9_counterexample :
    generate_utm_grid wT 0 1 0 1 1 = ([[0]], [[0]])
    ∧ (generate_utm_grid wT 0 1 0 1 1).1 ≠ [] := by
  have he : generate_utm_grid wT 0 1 0 1 1 = ([[0]], [[0]]) := by
    norm_num [generate_utm_grid, wT, linspace, meshgrid]
  exact ⟨he, by rw [he]; simp⟩

/-- C10: the point-in-polygon containment shared by the boundary mask and the
point query is strict: a point exactly on the region boundary is not
contained, so a grid site there is masked to the undefined value and a query
there reports `extrapolated = true`. -/
theorem C10_boundary_strict (polygon : Polygon) (p : Pt)
    (lon_grid lat_grid : List (List ℚ)) (z : List (List ℚ))
    (zm : List (List (Option ℚ))) (i j : ℕ) (v : ℚ)
    (hb : onBoundary polygon p = true)
    (hlon : cell2 lon_grid i j = some p.1)
    (hlat : cell2 lat_grid i j = some p.2)
    (hzv : cell2 z i j = some v) :
    contains polygon p = false
    ∧ cell2 (mask_grid_with_polygon lon_grid lat_grid polygon) i j
        = some false
    ∧ cell2 (np_where_mask (mask_grid_with_polygon lon_grid lat_grid polygon)
        z) i j = some none
    ∧ (get_aqi_at_location p.2 p.1 lat_grid lon_grid zm polygon).2 = true := by
  have hcf : contains polygon p = false := contains_eq_false_of_onBoundary hb
  have hmask : cell2 (mask_grid_with_polygon lon_grid lat_grid polygon) i j
      = some false := by
    unfold mask_grid_with_polygon
    have h := cell2_zipWith (fun lon lat => contains polygon (lon, lat))
      hlon hlat
    rw [h]
    exact congrArg some hcf
  have hwhere : cell2 (np_where_mask
      (mask_grid_with_polygon lon_grid lat_grid polygon) z) i j
      = some none := by
    unfold np_where_mask
    have h := cell2_zipWith (fun m v => if m then some v else none) hmask hzv
    rw [h]
    rfl
  have hflag : (get_aqi_at_location p.2 p.1 lat_grid lon_grid zm polygon).2
      = true := by
    unfold get_aqi_at_location
    simp only [show contains polygon (p.1, p.2) = false from hcf]
    simp
  exact ⟨hcf, hmask, hwhere, hflag⟩

/-- Witness for C10: the point `(0, -1)` on the bottom edge of the fixture
square is not contained, is masked out, and queries there are flagged as
extrapolated. -/
theorem C10_boundary_strict_witness :
    contains wPoly (0, -1) = false
    ∧ cell2 (mask_grid_with_polygon [[0]] [[-1]] wPoly) 0 0 = some false
    ∧ cell2 (np_where_mask (mask_grid_with_polygon [[0]] [[-1]] wPoly) [[5]])
        0 0 = some none
    ∧ (get_aqi_at_location (-1) 0 [[-1]] [[0]] [] wPoly).2 = true :=
  C10_boundary_strict wPoly (0, -1) [[0]] [[-1]] [[5]] [] 0 0 5
    (by norm_num [onBoundary, edges, onSegment, wPoly]) rfl rfl rfl

end DelhiAQI
